import Mathlib

/-!
Verification of the pyftpserver control-connection state machine and its
storage providers against the natural-language specification.

The embedding translates, straight from the Python source:
  * `Server.read_till_crlf` (byte-at-a-time line reader with the 1000-byte
    ceiling) as `rtcStep` / `read_till_crlf` over a byte stream `List Nat`;
  * `Server.command_loop` (the command interpreter) as `dispatchLine` /
    `stepLoop` / `commandLoop`, parameterised by an abstract storage
    provider oracle `Provider σ` and emitting an event trace (replies,
    provider invocations, passive-channel data);
  * `FileSystemProvider` path handling (`normalize_path`,
    `change_work_dir`), file store (`save_file` / `get_file`) and directory
    listing formatting, and `DropboxProvider` listing formatting.

Sockets are modelled as byte lists; the passive data channel is the byte
content the peer would deliver; a Python exception is an `Except.error` or
a `raised` flag; reply text is built exactly as the source f-strings build
it.  Wall-clock concerns (timeouts, thread scheduling) are outside the
model: a PASV accept outcome is provided by an oracle supply.
-/

/-! ### String helpers -/

/-- Replace every backslash by a slash, as Python `replace('\\', '/')`
does on the constructor argument of `FileSystemProvider`. -/
def pyBackslashToSlash (s : String) : String :=
  String.mk (s.data.map (fun c => if c = '\\' then '/' else c))

/-- One left-to-right, non-overlapping pass replacing `"//"` by `"/"`
over a character list, as Python `str.replace('//', '/')` does. -/
def replSlash2 : List Char → List Char
  | '/' :: '/' :: rest => '/' :: replSlash2 rest
  | c :: rest => c :: replSlash2 rest
  | [] => []

/-- Python `s.replace('//', '/')`. -/
def pyReplace2 (s : String) : String :=
  String.mk (replSlash2 s.data)

/-- Split a character list at the first space, returning the part before
it and (when a space exists) the part after it; this is Python
`line.split(' ', 1)` together with the `' ' in line` test. -/
def splitFirstSpace : List Char → List Char × Option (List Char)
  | [] => ([], none)
  | c :: rest =>
    if c = ' ' then ([], some rest)
    else
      let r := splitFirstSpace rest
      (c :: r.1, r.2)

/-- Bytes of a string, one per character (the lines in play are ASCII). -/
def encodeStr (s : String) : List Nat :=
  s.data.map Char.toNat

/-- A wire line: the content bytes followed by CR LF. -/
def encodeLine (s : String) : List Nat :=
  encodeStr s ++ [13, 10]

/-- Decode bytes to text, one character per byte (used after the reader
has verified the bytes are 7-bit). -/
def decodeAscii (bs : List Nat) : String :=
  String.mk (bs.map Char.ofNat)

/-- Render an optional command argument the way a Python f-string renders
it: `None` becomes the text `"None"`. -/
def fstrOpt : Option String → String
  | some s => s
  | none => "None"

/-- The server name; the apostrophe character is built explicitly. -/
def SERVER_NAME : String :=
  "Eli" ++ String.mk [Char.ofNat 39] ++ "s ftp server"

/-! ### Line Reader (`Server.read_till_crlf`) -/

/-- The ways `read_till_crlf` can raise: the socket closed with a partial
line buffered, the 1000-byte ceiling was exceeded, or the buffered bytes
are not 7-bit ASCII. -/
inductive RtcError
  | sockTerm
  | tooLong
  | decodeErr
  deriving DecidableEq, Repr

/-- `str(buf[:-2], 'ascii')`: drop the last two buffered bytes and decode. -/
def rtcFinish (buf : List Nat) : Except RtcError (List Nat) :=
  let content := buf.take (buf.length - 2)
  if ∀ b ∈ content, b < 128 then .ok content else .error .decodeErr

/-- The loop of `Server.read_till_crlf`, reading one byte per iteration
from the head of `input`.  Returns the outcome together with the bytes of
`input` not yet consumed.  An empty `input` is a closed socket (`recv`
returns no bytes). -/
def rtcStep : List Nat → List Nat → Bool → Except RtcError (List Nat) × List Nat
  | [], buf, _ =>
    (if buf.length ≠ 0 then .error .sockTerm else rtcFinish buf, [])
  | c :: rest, buf, isPrvCr =>
    if buf.length > 1000 then (.error .tooLong, rest)
    else if c = 13 then rtcStep rest (buf ++ [c]) true
    else if isPrvCr = true ∧ c = 10 then (rtcFinish (buf ++ [c]), rest)
    else rtcStep rest (buf ++ [c]) false

/-- `Server.read_till_crlf`: read one line from the byte stream. -/
def read_till_crlf (input : List Nat) : Except RtcError (List Nat) :=
  (rtcStep input [] false).1

/-! ### Storage Provider oracle (`ProviderBase` contract)

Each operation of the abstract provider may raise (modelled as
`Except.error ()`); operations that mutate backend state return the new
state.  `get_work_dir` merely returns an attribute in both concrete
providers, so it is total.  `save_file` receives the bytes available on
the passive channel, from which the concrete provider pulls chunks. -/

structure Provider (σ : Type) where
  change_work_dir : σ → Option String → Except Unit (Bool × σ)
  del_file : σ → Option String → Except Unit σ
  listdir : σ → Except Unit (String × σ)
  mkdir : σ → Option String → Except Unit σ
  get_work_dir : σ → String
  rmdir : σ → Option String → Except Unit σ
  rename_file : σ → Option String → String → Except Unit σ
  get_size : σ → Option String → Except Unit ((Bool × String) × σ)
  get_file : σ → Option String → Except Unit (List Nat × σ)
  save_file : σ → Option String → List Nat → Except Unit σ

/-- Which provider operation the interpreter invoked, with its arguments
(recorded so that theorems can speak about side effects). -/
inductive ProvOp
  | cwdOp (a : Option String)
  | delFileOp (a : Option String)
  | listdirOp
  | mkdirOp (a : Option String)
  | rmdirOp (a : Option String)
  | renameFileOp (src : Option String) (tgt : String)
  | getSizeOp (a : Option String)
  | getFileOp (a : Option String)
  | saveFileOp (a : Option String) (pd : List Nat)
  deriving DecidableEq, Repr

/-- Observable events of one session: a control-connection reply line
`<code> <text>`, a provider invocation, or bytes sent over the passive
data channel. -/
inductive Ev
  | reply (code : Nat) (text : String)
  | provCall (op : ProvOp)
  | dataSent (bytes : List Nat)
  deriving DecidableEq, Repr

/-- Per-session interpreter state: the provider state, the accepted
passive data connection (`passive_client`, at most one by construction),
and the oracle supply of PASV outcomes (the encoded address text of the
ephemeral listener, and the data connection accepted within the timeout,
if any). -/
structure St (σ : Type) where
  prov : σ
  passive : Option (List Nat)
  pasvSupply : List (String × Option (List Nat))
  deriving DecidableEq, Repr

/-- Result of handling one received line: the loop continues with a new
state having emitted events and consumed input, the client closed the
connection cleanly (empty line), or a line-read error propagated out of
`command_loop` (the thread dies). -/
inductive StepRes (σ : Type)
  | cont (st : St σ) (evs : List Ev) (rest : List Nat)
  | closedByClient (evs : List Ev)
  | fatal (e : RtcError) (evs : List Ev)
  deriving DecidableEq, Repr

/-- Outcome of one `try:` body: the state after it, the events it
emitted, the control-connection input left (the RNFR handler reads a
second line), and whether the body raised. -/
def TryRes (σ : Type) : Type :=
  St σ × List Ev × List Nat × Bool

/-- The CWD branch.  On `.ok (true, _)` with a missing argument the
reply text `'dir changed to ' + None` raises after the provider has
already mutated. -/
def cwdHandler {σ : Type} (P : Provider σ) (st : St σ) (args : Option String)
    (rest : List Nat) : TryRes σ :=
  match P.change_work_dir st.prov args with
  | .error _ => (st, [.provCall (.cwdOp args)], rest, true)
  | .ok (true, p') =>
    match args with
    | some a =>
      ({ st with prov := p' },
       [.provCall (.cwdOp args), .reply 250 ("dir changed to " ++ a)], rest, false)
    | none => ({ st with prov := p' }, [.provCall (.cwdOp args)], rest, true)
  | .ok (false, p') =>
    ({ st with prov := p' },
     [.provCall (.cwdOp args), .reply 550 "No such directory"], rest, false)

/-- The DELE branch. -/
def deleHandler {σ : Type} (P : Provider σ) (st : St σ) (args : Option String)
    (rest : List Nat) : TryRes σ :=
  match P.del_file st.prov args with
  | .error _ => (st, [.provCall (.delFileOp args)], rest, true)
  | .ok p' =>
    ({ st with prov := p' },
     [.provCall (.delFileOp args),
      .reply 257 ("\"" ++ fstrOpt args ++ "\" File deleted")], rest, false)

/-- The LIST branch (`passive_reply` with `provider.listdir`): without a
passive channel reply 425 and call nothing; otherwise reply 150, obtain
the listing, send it, close and clear the channel, reply 226.  A
non-ASCII listing makes `bytes(d, 'ascii')` raise before the channel is
closed or cleared. -/
def listHandler {σ : Type} (P : Provider σ) (st : St σ) (rest : List Nat) :
    TryRes σ :=
  match st.passive with
  | none => (st, [.reply 425 "Enter passive mode first"], rest, false)
  | some _ =>
    match P.listdir st.prov with
    | .error _ =>
      (st, [.reply 150 "Sending current directory listing", .provCall .listdirOp],
       rest, true)
    | .ok (txt, p') =>
      if ∀ c ∈ txt.data, c.toNat < 128 then
        ({ st with prov := p', passive := none },
         [.reply 150 "Sending current directory listing", .provCall .listdirOp,
          .dataSent (encodeStr txt), .reply 226 "Sent directory listing"],
         rest, false)
      else
        ({ st with prov := p' },
         [.reply 150 "Sending current directory listing", .provCall .listdirOp],
         rest, true)

/-- The MKD / XMKD branch. -/
def mkdHandler {σ : Type} (P : Provider σ) (st : St σ) (args : Option String)
    (rest : List Nat) : TryRes σ :=
  match P.mkdir st.prov args with
  | .error _ => (st, [.provCall (.mkdirOp args)], rest, true)
  | .ok p' =>
    ({ st with prov := p' },
     [.provCall (.mkdirOp args),
      .reply 257 ("\"" ++ fstrOpt args ++ "\" Directory created")], rest, false)

/-- The PASV branch: reply 227 with the listener address, then accept.
A timed-out accept raises after the 227 reply, leaving the previous
passive connection in place; a successful accept replaces it. -/
def pasvHandler {σ : Type} (st : St σ) (rest : List Nat) : TryRes σ :=
  match st.pasvSupply with
  | [] => (st, [.reply 227 "Entering passive mode ()"], rest, true)
  | (addr, conn) :: supply' =>
    match conn with
    | none =>
      ({ st with pasvSupply := supply' },
       [.reply 227 ("Entering passive mode (" ++ addr ++ ")")], rest, true)
    | some d =>
      ({ st with passive := some d, pasvSupply := supply' },
       [.reply 227 ("Entering passive mode (" ++ addr ++ ")")], rest, false)

/-- The RMD / XRMD branch. -/
def rmdHandler {σ : Type} (P : Provider σ) (st : St σ) (args : Option String)
    (rest : List Nat) : TryRes σ :=
  match P.rmdir st.prov args with
  | .error _ => (st, [.provCall (.rmdirOp args)], rest, true)
  | .ok p' =>
    ({ st with prov := p' },
     [.provCall (.rmdirOp args),
      .reply 250 ("\"" ++ fstrOpt args ++ "\" Directory removed")], rest, false)

/-- The RNFR branch: reply 350, read the next line inside the `try:`,
require it to start with `RNTO` and contain a space, then rename. -/
def rnfrHandler {σ : Type} (P : Provider σ) (st : St σ) (args : Option String)
    (rest : List Nat) : TryRes σ :=
  match rtcStep rest [] false with
  | (.error _, rest2) => (st, [.reply 350 "Ready to rename"], rest2, true)
  | (.ok bs, rest2) =>
    let line2 := decodeAscii bs
    if line2 = "" ∨ ¬ ("RNTO".data.isPrefixOf line2.data) then
      (st, [.reply 350 "Ready to rename"], rest2, true)
    else
      match splitFirstSpace line2.data with
      | (_, none) => (st, [.reply 350 "Ready to rename"], rest2, true)
      | (_, some a2) =>
        let toName := String.mk a2
        match P.rename_file st.prov args toName with
        | .error _ =>
          (st, [.reply 350 "Ready to rename",
                .provCall (.renameFileOp args toName)], rest2, true)
        | .ok p' =>
          ({ st with prov := p' },
           [.reply 350 "Ready to rename", .provCall (.renameFileOp args toName),
            .reply 250 "Renamed file"], rest2, false)

/-- The RETR branch: `get_size` first (550 when not a file), then the
passive-channel send of `get_file`. -/
def retrHandler {σ : Type} (P : Provider σ) (st : St σ) (args : Option String)
    (rest : List Nat) : TryRes σ :=
  match P.get_size st.prov args with
  | .error _ => (st, [.provCall (.getSizeOp args)], rest, true)
  | .ok ((isFile, _), p') =>
    if isFile = false then
      ({ st with prov := p' },
       [.provCall (.getSizeOp args), .reply 550 "Not a file"], rest, false)
    else
      match st.passive with
      | none =>
        ({ st with prov := p' },
         [.provCall (.getSizeOp args), .reply 425 "Enter passive mode first"],
         rest, false)
      | some _ =>
        match P.get_file p' args with
        | .error _ =>
          ({ st with prov := p' },
           [.provCall (.getSizeOp args),
            .reply 150 ("Sending binary file " ++ fstrOpt args),
            .provCall (.getFileOp args)], rest, true)
        | .ok (bytes, p'') =>
          ({ st with prov := p'', passive := none },
           [.provCall (.getSizeOp args),
            .reply 150 ("Sending binary file " ++ fstrOpt args),
            .provCall (.getFileOp args), .dataSent bytes,
            .reply 226 "File transfer complete"], rest, false)

/-- The SIZE branch. -/
def sizeHandler {σ : Type} (P : Provider σ) (st : St σ) (args : Option String)
    (rest : List Nat) : TryRes σ :=
  match P.get_size st.prov args with
  | .error _ => (st, [.provCall (.getSizeOp args)], rest, true)
  | .ok ((ok1, sz), p') =>
    if ok1 then
      ({ st with prov := p' }, [.provCall (.getSizeOp args), .reply 213 sz],
       rest, false)
    else
      ({ st with prov := p' },
       [.provCall (.getSizeOp args), .reply 550 "Could not get file size"],
       rest, false)

/-- The STOR branch (`passive_read`): without a passive channel reply
425 and call nothing; otherwise reply 150, let `save_file` pull from the
channel, close and clear it, reply 226. -/
def storHandler {σ : Type} (P : Provider σ) (st : St σ) (args : Option String)
    (rest : List Nat) : TryRes σ :=
  match st.passive with
  | none => (st, [.reply 425 "Enter passive mode first"], rest, false)
  | some pd =>
    match P.save_file st.prov args pd with
    | .error _ =>
      (st, [.reply 150 "OK, send data", .provCall (.saveFileOp args pd)],
       rest, true)
    | .ok p' =>
      ({ st with prov := p', passive := none },
       [.reply 150 "OK, send data", .provCall (.saveFileOp args pd),
        .reply 226 "File store complete"], rest, false)

/-- The TYPE branch: only a non-empty argument `I` or `A` gets 200. -/
def typeHandler {σ : Type} (st : St σ) (args : Option String)
    (rest : List Nat) : TryRes σ :=
  match args with
  | some a =>
    if a ≠ "" ∧ (a = "I" ∨ a = "A") then (st, [.reply 200 "OK"], rest, false)
    else (st, [.reply 501 "Unknown TYPE arg"], rest, false)
  | none => (st, [.reply 501 "Unknown TYPE arg"], rest, false)

/-- The body of the `try:` block of `Server.command_loop` for one
dispatched command, given the already split verb and argument: the
verb-equality chain of the source, branch for branch. -/
def tryBody {σ : Type} (P : Provider σ) (st : St σ) (cmd : String)
    (args : Option String) (rest : List Nat) : TryRes σ :=
  if cmd = "CWD" then cwdHandler P st args rest
  else if cmd = "DELE" then deleHandler P st args rest
  else if cmd = "LIST" then listHandler P st rest
  else if cmd = "MKD" ∨ cmd = "XMKD" then mkdHandler P st args rest
  else if cmd = "NOOP" ∨ cmd = "noop" then (st, [.reply 200 "NOOP OK"], rest, false)
  else if cmd = "OPTS" ∨ cmd = "opts" then (st, [.reply 501 "opts-bad"], rest, false)
  else if cmd = "PASV" then pasvHandler st rest
  else if cmd = "PWD" ∨ cmd = "XPWD" then
    (st, [.reply 257 ("\"" ++ P.get_work_dir st.prov ++ "\" Is the current dir")],
     rest, false)
  else if cmd = "QUIT" then (st, [.reply 221 "OK Bye"], rest, false)
  else if cmd = "RMD" ∨ cmd = "XRMD" then rmdHandler P st args rest
  else if cmd = "RNFR" then rnfrHandler P st args rest
  else if cmd = "RETR" then retrHandler P st args rest
  else if cmd = "SIZE" then sizeHandler P st args rest
  else if cmd = "STOR" then storHandler P st args rest
  else if cmd = "SYST" then (st, [.reply 213 "WIN32"], rest, false)
  else if cmd = "TYPE" then typeHandler st args rest
  else if cmd = "USER" then (st, [.reply 230 "Login successful"], rest, false)
  else (st, [.reply 501 "Unknown cmd"], rest, false)

/-- Wrap a `try:` body outcome as the loop sees it: append the single
`500 Error executing cmd` reply when the body raised; the loop always
continues. -/
def mkCont {σ : Type} (r : TryRes σ) : StepRes σ :=
  .cont r.1 (r.2.1 ++ if r.2.2.2 then [Ev.reply 500 "Error executing cmd"] else [])
    r.2.2.1

/-- Handle one received non-empty command line: split on the first
space, run the `try:` body, and convert. -/
def dispatchLine {σ : Type} (P : Provider σ) (st : St σ) (line : String)
    (rest : List Nat) : StepRes σ :=
  let sp := splitFirstSpace line.data
  mkCont (tryBody P st (String.mk sp.1) (sp.2.map String.mk) rest)

/-- One iteration of the `while True:` loop of `Server.command_loop`:
read a line; a read error propagates (no reply), an empty line breaks the
loop (client closed), anything else is dispatched. -/
def stepLoop {σ : Type} (P : Provider σ) (st : St σ) (input : List Nat) :
    StepRes σ :=
  match rtcStep input [] false with
  | (.error e, _) => .fatal e []
  | (.ok bs, rest) =>
    if bs = [] then .closedByClient []
    else dispatchLine P st (decodeAscii bs) rest

/-- How a session run ends. -/
inductive Outcome
  | clientClosed
  | fatal (e : RtcError)
  | fuelOut
  deriving DecidableEq, Repr

/-- The command loop, fuelled: collects all emitted events and the way
the loop ended. -/
def commandLoop {σ : Type} (P : Provider σ) : Nat → St σ → List Nat →
    List Ev × Outcome
  | 0, _, _ => ([], .fuelOut)
  | fuel + 1, st, input =>
    match stepLoop P st input with
    | .fatal e evs => (evs, .fatal e)
    | .closedByClient evs => (evs, .clientClosed)
    | .cont st' evs rest =>
      let r := commandLoop P fuel st' rest
      (evs ++ r.1, r.2)

/-- A whole session: the 220 greeting followed by the command loop. -/
def runSession {σ : Type} (P : Provider σ) (fuel : Nat) (st : St σ)
    (input : List Nat) : List Ev × Outcome :=
  let r := commandLoop P fuel st input
  (Ev.reply 220 ("Hello, " ++ SERVER_NAME) :: r.1, r.2)

/-! ### `FileSystemProvider` -/

/-- State of a `FileSystemProvider`: the constructor-time root, the
mutable working directory, plus oracles for the OS: the set of existing
directories (`os.path.isdir`) and the file store (path to byte content;
`open`/`os` access the newest entry for a path first). -/
structure FsState where
  root_dir : String
  working_dir : String
  dirs : List String
  files : List (String × List Nat)
  deriving DecidableEq, Repr

/-- `FileSystemProvider.normalize_path`: assert the path is non-empty,
prepend the working directory unless absolute, prepend the root, and
collapse `"//"` twice. -/
def FsState.normalize_path (st : FsState) (path : String) : Except Unit String :=
  if path = "" then .error ()
  else
    let p := if path.data.head? = some '/' then path
             else st.working_dir ++ "/" ++ path
    .ok (pyReplace2 (pyReplace2 (st.root_dir ++ "/" ++ p)))

/-- `FileSystemProvider.__init__`: replace backslashes in the root, set
the working directory to the root, and require the root to be an
existing directory. -/
def fsInit (root_dir : String) (dirs : List String)
    (files : List (String × List Nat)) : Except Unit FsState :=
  let r := pyBackslashToSlash root_dir
  if r ∈ dirs then .ok ⟨r, r, dirs, files⟩ else .error ()

/-- `FileSystemProvider.get_work_dir`. -/
def FsState.get_work_dir (st : FsState) : String :=
  st.working_dir

/-- `FileSystemProvider.change_work_dir`: on success store the
normalized path with the first `len(root_dir)` characters removed and a
`'/'` prepended. -/
def FsState.change_work_dir (st : FsState) (new_dir : String) :
    Except Unit (Bool × FsState) :=
  match st.normalize_path new_dir with
  | .error e => .error e
  | .ok nd =>
    if nd ∈ st.dirs then
      .ok (true, { st with working_dir := "/" ++ nd.drop st.root_dir.length })
    else
      .ok (false, st)

/-- `FileSystemProvider.get_file`: `open(f, 'rb').read()`; a missing
file raises. -/
def FsState.get_file (st : FsState) (f : String) : Except Unit (List Nat) :=
  match st.normalize_path f with
  | .error e => .error e
  | .ok nf =>
    match st.files.lookup nf with
    | some bytes => .ok bytes
    | none => .error ()

/-- The `while data:` loop of `FileSystemProvider.save_file`: write the
successive chunks until the first empty one. -/
def writeChunks : List (List Nat) → List Nat
  | [] => []
  | c :: cs => if c = [] then [] else c ++ writeChunks cs

/-- `FileSystemProvider.save_file`: create/truncate the file and write
the chunks pulled from the source (here, the list of successive chunk
values the source returns). -/
def FsState.save_file (st : FsState) (f : String) (chunks : List (List Nat)) :
    Except Unit FsState :=
  match st.normalize_path f with
  | .error e => .error e
  | .ok nf => .ok { st with files := (nf, writeChunks chunks) :: st.files }

/-! ### Directory listing formats (`listdir` of both providers) -/

/-- One entry as `FileSystemProvider.listdir` sees it: its name, whether
`os.path.isdir` holds, the `os.stat` size, and the already formatted
modification time (the `time.strftime` result, an oracle here). -/
structure FsDirEntry where
  name : String
  isDir : Bool
  stSize : Nat
  timeStr : String
  deriving DecidableEq, Repr

/-- The f-string of `FileSystemProvider.listdir` for one entry: note the
directory branch prints `f_stat.st_size` unchanged. -/
def fsListLine (e : FsDirEntry) : String :=
  if e.isDir then
    "drwxr-xr-x 2 0 0 " ++ toString e.stSize ++ " " ++ e.timeStr ++ " "
      ++ e.name ++ "\r\n"
  else
    "-rw-r--r-- 1 0 0 " ++ toString e.stSize ++ " " ++ e.timeStr ++ " "
      ++ e.name ++ "\r\n"

/-- `FileSystemProvider.listdir`: concatenate the per-entry lines. -/
def fs_listdir_text (entries : List FsDirEntry) : String :=
  entries.foldl (fun acc e => acc ++ fsListLine e) ""

/-- One entry as `DropboxProvider.listdir` sees it: `.tag == 'folder'`,
the API-reported size for files, and the formatted time. -/
structure DbxEntry where
  name : String
  isDir : Bool
  size : Nat
  timeStr : String
  deriving DecidableEq, Repr

/-- The per-entry line of `DropboxProvider.listdir`: a folder gets
`f_size = 0`. -/
def dbxListLine (e : DbxEntry) : String :=
  let f_size := if e.isDir then 0 else e.size
  if e.isDir then
    "drwxr-xr-x 2 0 0 " ++ toString f_size ++ " " ++ e.timeStr ++ " "
      ++ e.name ++ "\r\n"
  else
    "-rw-r--r-- 1 0 0 " ++ toString f_size ++ " " ++ e.timeStr ++ " "
      ++ e.name ++ "\r\n"

/-- `DropboxProvider.listdir`: concatenate the per-entry lines. -/
def dbx_listdir_text (entries : List DbxEntry) : String :=
  entries.foldl (fun acc e => acc ++ dbxListLine e) ""

/-- Modelled from the spec (claim C7 wording), for comparison with the
source formatting: one `ls -l`-style line with uid and gid 0, permission
string by entry kind, size 0 for a directory, CRLF terminated. -/
def specListLine (isDir : Bool) (size : Nat) (timeStr name : String) : String :=
  (if isDir then "drwxr-xr-x" else "-rw-r--r--") ++ " "
    ++ (if isDir then "2" else "1") ++ " 0 0 "
    ++ toString (if isDir then 0 else size) ++ " " ++ timeStr ++ " "
    ++ name ++ "\r\n"

/-- The same fixed-field format but with the size field echoing the
given size for directories as well (what the filesystem provider
actually emits). -/
def specListLineSized (isDir : Bool) (size : Nat) (timeStr name : String) :
    String :=
  (if isDir then "drwxr-xr-x" else "-rw-r--r--") ++ " "
    ++ (if isDir then "2" else "1") ++ " 0 0 "
    ++ toString size ++ " " ++ timeStr ++ " " ++ name ++ "\r\n"

/-! ### Concrete instances used by witnesses and counterexamples -/

/-- A provider over trivial state whose every fallible operation raises. -/
def failProv : Provider Unit where
  change_work_dir := fun _ _ => .error ()
  del_file := fun _ _ => .error ()
  listdir := fun _ => .error ()
  mkdir := fun _ _ => .error ()
  get_work_dir := fun _ => "/"
  rmdir := fun _ _ => .error ()
  rename_file := fun _ _ _ => .error ()
  get_size := fun _ _ => .error ()
  get_file := fun _ _ => .error ()
  save_file := fun _ _ _ => .error ()

/-- A provider whose state records the `rename_file` invocations and
whose other operations succeed with fixed answers. -/
def recProv : Provider (List (Option String × String)) where
  change_work_dir := fun s _ => .ok (true, s)
  del_file := fun s _ => .ok s
  listdir := fun s => .ok ("listing", s)
  mkdir := fun s _ => .ok s
  get_work_dir := fun _ => "/"
  rmdir := fun s _ => .ok s
  rename_file := fun s src tgt => .ok ((src, tgt) :: s)
  get_size := fun s _ => .ok ((true, "7"), s)
  get_file := fun s _ => .ok ([1, 2, 3], s)
  save_file := fun s _ _ => .ok s

/-- Initial session state over the trivial provider. -/
def st0 : St Unit := ⟨(), none, []⟩

/-- Initial session state over the recording provider. -/
def stRec : St (List (Option String × String)) := ⟨[], none, []⟩

/-- Predicate for a 500 reply event. -/
def is500 : Ev → Bool
  | .reply c _ => c == 500
  | _ => false

/-! ### Shared lemmas -/

theorem strMkData (s : String) : String.mk s.data = s := by
  cases s; rfl

theorem splitFS_no_space (l : List Char) (h : ∀ c ∈ l, c ≠ ' ') :
    splitFirstSpace l = (l, none) := by
  induction l with
  | nil => rfl
  | cons c cs ih =>
    have hc : c ≠ ' ' := h c (by simp)
    simp only [splitFirstSpace, if_neg hc]
    rw [ih (fun x hx => h x (by simp [hx]))]

theorem splitFS_arg (p t : List Char) (h : ∀ c ∈ p, c ≠ ' ') :
    splitFirstSpace (p ++ ' ' :: t) = (p, some t) := by
  induction p with
  | nil => simp [splitFirstSpace]
  | cons c cs ih =>
    have hc : c ≠ ' ' := h c (by simp)
    simp only [List.cons_append, splitFirstSpace, if_neg hc, List.append_eq]
    rw [ih (fun x hx => h x (by simp [hx]))]

theorem decode_encode (s : String) : decodeAscii (encodeStr s) = s := by
  unfold decodeAscii encodeStr
  rw [List.map_map]
  have : (Char.ofNat ∘ Char.toNat) = id := by
    funext c
    simp [Char.ofNat_toNat]
  rw [this, List.map_id, strMkData]

theorem take_drop2 (l : List Nat) (a b : Nat) :
    (l ++ [a, b]).take ((l ++ [a, b]).length - 2) = l := by
  have h : (l ++ [a, b]).length - 2 = l.length := by simp
  rw [h]
  exact List.take_left l [a, b]

theorem rtcFinish_crlf (buf : List Nat) (hb : ∀ b ∈ buf, b < 128) :
    rtcFinish (buf ++ [13, 10]) = .ok buf := by
  simp only [rtcFinish]
  rw [take_drop2]
  exact if_pos hb

/-- Reading from a stream that starts with `content` bytes and then CR LF:
when the content is CR-free, 7-bit and short enough the reader returns it
and leaves the rest of the stream untouched. -/
theorem rtc_ok (content : List Nat) (buf rest : List Nat)
    (hc : ∀ b ∈ content, b < 128 ∧ b ≠ 13) (hb : ∀ b ∈ buf, b < 128)
    (hlen : buf.length + content.length ≤ 999) :
    rtcStep (content ++ 13 :: 10 :: rest) buf false = (.ok (buf ++ content), rest) := by
  induction content generalizing buf with
  | nil =>
    have h1 : ¬ buf.length > 1000 := by omega
    have h2 : ¬ (buf ++ [13]).length > 1000 := by
      simp only [List.length_append, List.length_cons, List.length_nil]
      omega
    show rtcStep (13 :: 10 :: rest) buf false = (.ok (buf ++ []), rest)
    simp only [rtcStep, if_neg h1, if_neg h2]
    norm_num
    rw [rtcFinish_crlf buf hb]
  | cons c cs ih =>
    have hc1 := hc c (by simp)
    have h1 : ¬ buf.length > 1000 := by omega
    have step : rtcStep ((c :: cs) ++ 13 :: 10 :: rest) buf false
        = rtcStep (cs ++ 13 :: 10 :: rest) (buf ++ [c]) false := by
      simp only [List.cons_append, rtcStep, if_neg h1, if_neg hc1.2, List.append_eq]
      rw [if_neg (by simp : ¬ (false = true ∧ c = 10))]
    have hb' : ∀ b ∈ buf ++ [c], b < 128 := by
      intro x hx
      rcases List.mem_append.1 hx with hxx | hxx
      · exact hb x hxx
      · simp at hxx; subst hxx; exact hc1.1
    have hlen' : (buf ++ [c]).length + cs.length ≤ 999 := by
      simp only [List.length_append, List.length_cons, List.length_nil]
      simp only [List.length_cons] at hlen
      omega
    rw [step, ih (buf ++ [c]) (fun x hx => hc x (by simp [hx])) hb' hlen',
      List.append_assoc]
    rfl

/-- Reading from a stream that starts with 1000 or more CR-free content
bytes before the CR LF fails with the length-ceiling error. -/
theorem rtc_long (content : List Nat) (buf rest : List Nat)
    (hc : ∀ b ∈ content, b ≠ 13) (hlen : 1000 ≤ buf.length + content.length) :
    (rtcStep (content ++ 13 :: 10 :: rest) buf false).1 = .error .tooLong := by
  induction content generalizing buf with
  | nil =>
    show (rtcStep (13 :: 10 :: rest) buf false).1 = .error .tooLong
    by_cases h1 : buf.length > 1000
    · simp [rtcStep, if_pos h1]
    · have hb : buf.length = 1000 := by
        simp only [List.length_nil] at hlen
        omega
      simp [rtcStep, if_neg h1, hb]
  | cons c cs ih =>
    by_cases h1 : buf.length > 1000
    · simp [rtcStep, if_pos h1]
    · have hc1 : c ≠ 13 := hc c (by simp)
      have step : rtcStep ((c :: cs) ++ 13 :: 10 :: rest) buf false
          = rtcStep (cs ++ 13 :: 10 :: rest) (buf ++ [c]) false := by
        simp only [List.cons_append, rtcStep, if_neg h1, if_neg hc1, List.append_eq]
        rw [if_neg (by simp : ¬ (false = true ∧ c = 10))]
      have hlen' : 1000 ≤ (buf ++ [c]).length + cs.length := by
        simp only [List.length_append, List.length_cons, List.length_nil]
        simp only [List.length_cons] at hlen
        omega
      rw [step]
      exact ih (buf ++ [c]) (fun x hx => hc x (by simp [hx])) hlen'

/-- Splitting a line `<verb> <arg>` with a space-free verb dispatches the
verb with the whole remainder as argument. -/
theorem dispatch_verb_arg {σ : Type} (P : Provider σ) (st : St σ)
    (rest : List Nat) (v f : String) (hv : ∀ c ∈ v.data, c ≠ ' ') :
    dispatchLine P st (v ++ " " ++ f) rest = mkCont (tryBody P st v (some f) rest) := by
  unfold dispatchLine
  rw [String.data_append, String.data_append]
  rw [show (" " : String).data = [' '] from rfl]
  rw [show v.data ++ [' '] ++ f.data = v.data ++ ' ' :: f.data by simp]
  rw [splitFS_arg v.data f.data hv]
  show mkCont (tryBody P st (String.mk v.data) (some (String.mk f.data)) rest) = _
  rw [strMkData, strMkData]

/-- The bytes of an ASCII CR-free line in front of the stream are read
as exactly that line. -/
theorem rtc_line (s : String) (rest : List Nat)
    (hs : ∀ c ∈ s.data, c.toNat < 128 ∧ c ≠ '\r') (hlen : s.data.length ≤ 999) :
    rtcStep (encodeLine s ++ rest) [] false = (.ok (encodeStr s), rest) := by
  have h1 : encodeLine s ++ rest = encodeStr s ++ 13 :: 10 :: rest := by
    simp [encodeLine]
  rw [h1]
  have hc : ∀ b ∈ encodeStr s, b < 128 ∧ b ≠ 13 := by
    intro b hb
    simp only [encodeStr, List.mem_map] at hb
    obtain ⟨c, hc1, hc2⟩ := hb
    subst hc2
    refine ⟨(hs c hc1).1, fun h13 => (hs c hc1).2 ?_⟩
    have := congrArg Char.ofNat h13
    rw [Char.ofNat_toNat] at this
    exact this
  have := rtc_ok (encodeStr s) [] rest hc (by simp)
    (by simpa [encodeStr] using hlen)
  simpa using this

/-- Reading a non-empty encoded line at the top of the command loop
dispatches it and leaves the trailing stream for the next iteration. -/
theorem stepLoop_line {σ : Type} (P : Provider σ) (st : St σ) (s : String)
    (rest : List Nat) (hs : ∀ c ∈ s.data, c.toNat < 128 ∧ c ≠ '\r')
    (hlen : s.data.length ≤ 999) (hne : s ≠ "") :
    stepLoop P st (encodeLine s ++ rest) = dispatchLine P st s rest := by
  unfold stepLoop
  rw [rtc_line s rest hs hlen]
  dsimp only
  have hne2 : encodeStr s ≠ [] := by
    intro h
    apply hne
    have : s.data = [] := by
      have := congrArg List.length h
      simp [encodeStr] at this
      exact List.eq_nil_of_length_eq_zero this
    cases s
    simp_all
  rw [if_neg hne2, decode_encode]

/-- Unfolding one loop iteration whose step continues. -/
theorem commandLoop_cont {σ : Type} (P : Provider σ) (fuel : Nat) (st : St σ)
    (input : List Nat) (st' : St σ) (evs : List Ev) (rest' : List Nat)
    (h : stepLoop P st input = .cont st' evs rest') :
    commandLoop P (fuel + 1) st input =
      (evs ++ (commandLoop P fuel st' rest').1, (commandLoop P fuel st' rest').2) := by
  show (match stepLoop P st input with
    | .fatal e evs => (evs, Outcome.fatal e)
    | .closedByClient evs => (evs, Outcome.clientClosed)
    | .cont st' evs rest =>
      let r := commandLoop P fuel st' rest
      (evs ++ r.1, r.2)) = _
  rw [h]

/-- A step whose line read fails is fatal: no reply, session over. -/
theorem stepLoop_err {σ : Type} (P : Provider σ) (st : St σ) (input : List Nat)
    (e : RtcError) (h : (rtcStep input [] false).1 = .error e) :
    stepLoop P st input = .fatal e [] := by
  unfold stepLoop
  rcases h2 : rtcStep input [] false with ⟨r1, r⟩
  rw [h2] at h
  simp at h
  rw [h]

/-- Unfolding one loop iteration whose step is fatal. -/
theorem commandLoop_fatal {σ : Type} (P : Provider σ) (fuel : Nat) (st : St σ)
    (input : List Nat) (e : RtcError) (evs : List Ev)
    (h : stepLoop P st input = .fatal e evs) :
    commandLoop P (fuel + 1) st input = (evs, .fatal e) := by
  show (match stepLoop P st input with
    | .fatal e evs => (evs, Outcome.fatal e)
    | .closedByClient evs => (evs, Outcome.clientClosed)
    | .cont st' evs rest =>
      let r := commandLoop P fuel st' rest
      (evs ++ r.1, r.2)) = _
  rw [h]

/-! The `try:` body never emits a 500 reply itself: the only 500 comes
from the `except:` clause, once.  One lemma per handler, then the
dispatch chain. -/

theorem cwdHandler_no500 {σ : Type} (P : Provider σ) (st : St σ)
    (args : Option String) (rest : List Nat) :
    List.countP is500 (cwdHandler P st args rest).2.1 = 0 := by
  unfold cwdHandler
  repeat' (first | split | dsimp only)
  all_goals simp [is500]

theorem deleHandler_no500 {σ : Type} (P : Provider σ) (st : St σ)
    (args : Option String) (rest : List Nat) :
    List.countP is500 (deleHandler P st args rest).2.1 = 0 := by
  unfold deleHandler
  repeat' (first | split | dsimp only)
  all_goals simp [is500]

theorem listHandler_no500 {σ : Type} (P : Provider σ) (st : St σ)
    (rest : List Nat) :
    List.countP is500 (listHandler P st rest).2.1 = 0 := by
  unfold listHandler
  repeat' (first | split | dsimp only)
  all_goals simp [is500]

theorem mkdHandler_no500 {σ : Type} (P : Provider σ) (st : St σ)
    (args : Option String) (rest : List Nat) :
    List.countP is500 (mkdHandler P st args rest).2.1 = 0 := by
  unfold mkdHandler
  repeat' (first | split | dsimp only)
  all_goals simp [is500]

theorem pasvHandler_no500 {σ : Type} (st : St σ) (rest : List Nat) :
    List.countP is500 (pasvHandler st rest).2.1 = 0 := by
  unfold pasvHandler
  repeat' (first | split | dsimp only)
  all_goals simp [is500]

theorem rmdHandler_no500 {σ : Type} (P : Provider σ) (st : St σ)
    (args : Option String) (rest : List Nat) :
    List.countP is500 (rmdHandler P st args rest).2.1 = 0 := by
  unfold rmdHandler
  repeat' (first | split | dsimp only)
  all_goals simp [is500]

theorem rnfrHandler_no500 {σ : Type} (P : Provider σ) (st : St σ)
    (args : Option String) (rest : List Nat) :
    List.countP is500 (rnfrHandler P st args rest).2.1 = 0 := by
  unfold rnfrHandler
  repeat' (first | split | dsimp only)
  all_goals simp [is500]

theorem retrHandler_no500 {σ : Type} (P : Provider σ) (st : St σ)
    (args : Option String) (rest : List Nat) :
    List.countP is500 (retrHandler P st args rest).2.1 = 0 := by
  unfold retrHandler
  repeat' (first | split | dsimp only)
  all_goals simp [is500]

theorem sizeHandler_no500 {σ : Type} (P : Provider σ) (st : St σ)
    (args : Option String) (rest : List Nat) :
    List.countP is500 (sizeHandler P st args rest).2.1 = 0 := by
  unfold sizeHandler
  repeat' (first | split | dsimp only)
  all_goals simp [is500]

theorem storHandler_no500 {σ : Type} (P : Provider σ) (st : St σ)
    (args : Option String) (rest : List Nat) :
    List.countP is500 (storHandler P st args rest).2.1 = 0 := by
  unfold storHandler
  repeat' (first | split | dsimp only)
  all_goals simp [is500]

theorem typeHandler_no500 {σ : Type} (st : St σ) (args : Option String)
    (rest : List Nat) :
    List.countP is500 (typeHandler st args rest).2.1 = 0 := by
  unfold typeHandler
  repeat' (first | split | dsimp only)
  all_goals simp [is500]

theorem tryBody_no500 {σ : Type} (P : Provider σ) (st : St σ) (cmd : String)
    (args : Option String) (rest : List Nat) :
    List.countP is500 (tryBody P st cmd args rest).2.1 = 0 := by
  unfold tryBody
  by_cases h1 : cmd = "CWD"
  · rw [if_pos h1]; exact cwdHandler_no500 P st args rest
  rw [if_neg h1]
  by_cases h2 : cmd = "DELE"
  · rw [if_pos h2]; exact deleHandler_no500 P st args rest
  rw [if_neg h2]
  by_cases h3 : cmd = "LIST"
  · rw [if_pos h3]; exact listHandler_no500 P st rest
  rw [if_neg h3]
  by_cases h4 : cmd = "MKD" ∨ cmd = "XMKD"
  · rw [if_pos h4]; exact mkdHandler_no500 P st args rest
  rw [if_neg h4]
  by_cases h5 : cmd = "NOOP" ∨ cmd = "noop"
  · rw [if_pos h5]; simp [is500]
  rw [if_neg h5]
  by_cases h6 : cmd = "OPTS" ∨ cmd = "opts"
  · rw [if_pos h6]; simp [is500]
  rw [if_neg h6]
  by_cases h7 : cmd = "PASV"
  · rw [if_pos h7]; exact pasvHandler_no500 st rest
  rw [if_neg h7]
  by_cases h8 : cmd = "PWD" ∨ cmd = "XPWD"
  · rw [if_pos h8]; simp [is500]
  rw [if_neg h8]
  by_cases h9 : cmd = "QUIT"
  · rw [if_pos h9]; simp [is500]
  rw [if_neg h9]
  by_cases h10 : cmd = "RMD" ∨ cmd = "XRMD"
  · rw [if_pos h10]; exact rmdHandler_no500 P st args rest
  rw [if_neg h10]
  by_cases h11 : cmd = "RNFR"
  · rw [if_pos h11]; exact rnfrHandler_no500 P st args rest
  rw [if_neg h11]
  by_cases h12 : cmd = "RETR"
  · rw [if_pos h12]; exact retrHandler_no500 P st args rest
  rw [if_neg h12]
  by_cases h13 : cmd = "SIZE"
  · rw [if_pos h13]; exact sizeHandler_no500 P st args rest
  rw [if_neg h13]
  by_cases h14 : cmd = "STOR"
  · rw [if_pos h14]; exact storHandler_no500 P st args rest
  rw [if_neg h14]
  by_cases h15 : cmd = "SYST"
  · rw [if_pos h15]; simp [is500]
  rw [if_neg h15]
  by_cases h16 : cmd = "TYPE"
  · rw [if_pos h16]; exact typeHandler_no500 st args rest
  rw [if_neg h16]
  by_cases h17 : cmd = "USER"
  · rw [if_pos h17]; simp [is500]
  rw [if_neg h17]
  simp [is500]

/-! ### Claim C4 — line reader boundary -/

/-- C4 counterexample: a CRLF-terminated line whose content is exactly
1000 bytes — within the claimed "at most 1000 bytes" — makes
`read_till_crlf` fail with the length-ceiling error instead of returning
the content: the CR of the terminator is already in the buffer when the
LF arrives, so the `len(buf) > 1000` check fires. -/
theorem c4_counterexample :
    (List.replicate 1000 65).length ≤ 1000 ∧
    read_till_crlf (List.replicate 1000 65 ++ 13 :: 10 :: []) = .error .tooLong := by
  refine ⟨by rw [List.length_replicate], ?_⟩
  unfold read_till_crlf
  exact rtc_long (List.replicate 1000 65) [] []
    (fun b hb => by have := List.eq_of_mem_replicate hb; omega)
    (by simp only [List.length_nil, List.length_replicate]; omega)

/-- C4 (amended): for every CRLF-terminated line whose CR-free 7-bit
content is at most 999 bytes, `read_till_crlf` returns that content with
the terminator stripped; a line whose content is 1000 bytes or more
fails with the length-ceiling error, because the CR of the terminator
counts against the 1000-byte buffer check before the LF is read. -/
theorem c4_line_reader_boundary :
    (∀ (content rest : List Nat), (∀ b ∈ content, b < 128 ∧ b ≠ 13) →
      content.length ≤ 999 →
      read_till_crlf (content ++ 13 :: 10 :: rest) = .ok content)
    ∧ (∀ (content rest : List Nat), (∀ b ∈ content, b ≠ 13) →
      1000 ≤ content.length →
      read_till_crlf (content ++ 13 :: 10 :: rest) = .error .tooLong) := by
  constructor
  · intro content rest h1 h2
    unfold read_till_crlf
    rw [rtc_ok content [] rest h1 (by simp) (by simpa using h2)]
    simp
  · intro content rest h1 h2
    unfold read_till_crlf
    exact rtc_long content [] rest h1 (by simpa using h2)

/-- C4 witness: both parts of the amended statement at concrete inputs. -/
theorem c4_witness :
    read_till_crlf ([65, 66] ++ 13 :: 10 :: []) = .ok [65, 66] ∧
    read_till_crlf (List.replicate 1000 65 ++ 13 :: 10 :: []) = .error .tooLong :=
  ⟨c4_line_reader_boundary.1 [65, 66] [] (by decide) (by decide),
   c4_line_reader_boundary.2 (List.replicate 1000 65) []
     (fun b hb => by have := List.eq_of_mem_replicate hb; omega)
     (by simp only [List.length_replicate]; omega)⟩

/-! ### Claim C2 — oversized line and session survival -/

/-- C2 counterexample: a session whose first command line is 1500 bytes
long.  The whole session trace is the 220 greeting and nothing else: no
500 reply is sent for the oversized line, and the session ends fatally —
it is not usable for a next command. -/
theorem c2_counterexample :
    runSession failProv 5 st0 (List.replicate 1500 65 ++ 13 :: 10 :: [])
      = ([Ev.reply 220 ("Hello, " ++ SERVER_NAME)], .fatal .tooLong) := by
  have h : (rtcStep (List.replicate 1500 65 ++ 13 :: 10 :: []) [] false).1
      = .error .tooLong :=
    rtc_long (List.replicate 1500 65) [] []
      (fun b hb => by have := List.eq_of_mem_replicate hb; omega)
      (by simp only [List.length_nil, List.length_replicate]; omega)
  have hloop : commandLoop failProv 5 st0 (List.replicate 1500 65 ++ 13 :: 10 :: [])
      = ([], .fatal .tooLong) :=
    commandLoop_fatal failProv 4 st0 _ .tooLong []
      (stepLoop_err failProv st0 _ .tooLong h)
  unfold runSession
  rw [hloop]

/-- C2 (amended): a command line that makes the Line Reader raise (in
particular one exceeding the length ceiling) is NOT converted to a 500
reply: the read happens outside the per-command `try:`, so the error
propagates, no reply is sent for that line, and the session terminates
instead of remaining usable. -/
theorem c2_oversized_line_fatal {σ : Type} (P : Provider σ) (st : St σ)
    (input : List Nat) (e : RtcError) (fuel : Nat)
    (h : (rtcStep input [] false).1 = .error e) :
    stepLoop P st input = .fatal e [] ∧
    runSession P (fuel + 1) st input
      = ([Ev.reply 220 ("Hello, " ++ SERVER_NAME)], .fatal e) := by
  have hstep : stepLoop P st input = .fatal e [] := stepLoop_err P st input e h
  refine ⟨hstep, ?_⟩
  have hloop : commandLoop P (fuel + 1) st input = ([], .fatal e) :=
    commandLoop_fatal P fuel st input e [] hstep
  unfold runSession
  rw [hloop]

/-- C2 witness: the amended statement at a concrete 1500-byte line. -/
theorem c2_witness :
    stepLoop failProv st0 (List.replicate 1500 65 ++ 13 :: 10 :: [])
        = .fatal .tooLong [] ∧
    runSession failProv 3 st0 (List.replicate 1500 65 ++ 13 :: 10 :: [])
      = ([Ev.reply 220 ("Hello, " ++ SERVER_NAME)], .fatal .tooLong) :=
  c2_oversized_line_fatal failProv st0 _ .tooLong 2
    (rtc_long (List.replicate 1500 65) [] []
      (fun b hb => by have := List.eq_of_mem_replicate hb; omega)
      (by simp only [List.length_nil, List.length_replicate]; omega))

/-! ### Claim C1 — QUIT and termination -/

/-- C1 counterexample: a session that sends QUIT and then NOOP.  After
the 221 reply the interpreter reads and dispatches the NOOP line and
replies 200: it has not transitioned to a terminated state; the loop
ends only later, when the client closes. -/
theorem c1_counterexample :
    runSession failProv 5 st0 (encodeLine "QUIT" ++ encodeLine "NOOP")
      = ([Ev.reply 220 ("Hello, " ++ SERVER_NAME), Ev.reply 221 "OK Bye",
          Ev.reply 200 "NOOP OK"], .clientClosed) := by
  rfl

/-- C1 (amended): after replying 221 to a QUIT line the command loop
does not terminate: it continues reading and dispatching on the
remaining input exactly as if QUIT had not been sent (session state
unchanged); the session ends only on EOF or a read error. -/
theorem c1_quit_does_not_terminate {σ : Type} (P : Provider σ) (fuel : Nat)
    (st : St σ) (rest : List Nat) :
    commandLoop P (fuel + 1) st (encodeLine "QUIT" ++ rest)
      = (Ev.reply 221 "OK Bye" :: (commandLoop P fuel st rest).1,
         (commandLoop P fuel st rest).2) := by
  have hd : dispatchLine P st "QUIT" rest = .cont st [Ev.reply 221 "OK Bye"] rest := rfl
  have hs : stepLoop P st (encodeLine "QUIT" ++ rest)
      = .cont st [Ev.reply 221 "OK Bye"] rest := by
    rw [stepLoop_line P st "QUIT" rest (by decide) (by decide) (by decide), hd]
  rw [commandLoop_cont P fuel st _ st [Ev.reply 221 "OK Bye"] rest hs]
  rfl

/-! ### Claim C3 — RNFR / RNTO sequencing -/

/-- C3 counterexample: after `RNFR a`, the next line `RNTOX b` is not an
RNTO command, yet — because the source checks `line.startswith('RNTO')` —
the rename is performed (the provider records `rename(a, b)`) and the
reply is 250, contradicting "no rename is performed and a 500-class
reply is surfaced". -/
theorem c3_counterexample :
    dispatchLine recProv stRec ("RNFR" ++ " " ++ "a") (encodeLine "RNTOX b")
      = .cont ⟨[(some "a", "b")], none, []⟩
          [Ev.reply 350 "Ready to rename",
           Ev.provCall (.renameFileOp (some "a") "b"),
           Ev.reply 250 "Renamed file"] [] := by
  rfl

/-- C3 (amended): after `RNFR <old>` is accepted with a 350 reply, the
next line is checked only by the string test `startswith('RNTO')` plus a
split on the first space.  (a) A next line not starting with `RNTO`
yields the generic 500 reply and no rename; (b) a next line starting
with `RNTO` but containing no space also yields 500 and no rename (the
unpacking of `split(' ', 1)` raises); (c) any next line whose first
space-separated token merely starts with `RNTO` — `RNTO` itself but also
e.g. `RNTOX` — performs `rename(old, target)` exactly once with the text
after the first space as target, and replies 250 on success. -/
theorem c3_rnfr_next_line :
    (∀ (σ : Type) (P : Provider σ) (st : St σ) (old l2 : String) (rest : List Nat),
      (∀ c ∈ l2.data, c.toNat < 128 ∧ c ≠ '\r') → l2.data.length ≤ 999 →
      ("RNTO".data.isPrefixOf l2.data) = false →
      dispatchLine P st ("RNFR" ++ " " ++ old) (encodeLine l2 ++ rest)
        = .cont st [Ev.reply 350 "Ready to rename",
                    Ev.reply 500 "Error executing cmd"] rest)
    ∧ (∀ (σ : Type) (P : Provider σ) (st : St σ) (old l2 : String) (rest : List Nat),
      (∀ c ∈ l2.data, c.toNat < 128 ∧ c ≠ '\r') → l2.data.length ≤ 999 →
      ("RNTO".data.isPrefixOf l2.data) = true → (∀ c ∈ l2.data, c ≠ ' ') →
      dispatchLine P st ("RNFR" ++ " " ++ old) (encodeLine l2 ++ rest)
        = .cont st [Ev.reply 350 "Ready to rename",
                    Ev.reply 500 "Error executing cmd"] rest)
    ∧ (∀ (σ : Type) (P : Provider σ) (st : St σ) (old pre t : String) (p' : σ)
        (rest : List Nat),
      (∀ c ∈ pre.data, (c.toNat < 128 ∧ c ≠ '\r') ∧ c ≠ ' ') →
      (∀ c ∈ t.data, c.toNat < 128 ∧ c ≠ '\r') →
      pre.data.length + t.data.length ≤ 998 →
      ("RNTO".data.isPrefixOf pre.data) = true →
      P.rename_file st.prov (some old) t = .ok p' →
      dispatchLine P st ("RNFR" ++ " " ++ old)
          (encodeLine (pre ++ " " ++ t) ++ rest)
        = .cont { st with prov := p' }
            [Ev.reply 350 "Ready to rename",
             Ev.provCall (.renameFileOp (some old) t),
             Ev.reply 250 "Renamed file"] rest) := by
  refine ⟨?_, ?_, ?_⟩
  · intro σ P st old l2 rest hs hlen hpre
    rw [dispatch_verb_arg P st _ "RNFR" old (by decide)]
    show mkCont (rnfrHandler P st (some old) (encodeLine l2 ++ rest)) = _
    unfold rnfrHandler
    rw [rtc_line l2 rest hs hlen]
    dsimp only
    rw [decode_encode]
    rw [if_pos (Or.inr (by simp [hpre]))]
    rfl
  · intro σ P st old l2 rest hs hlen hpre hnosp
    rw [dispatch_verb_arg P st _ "RNFR" old (by decide)]
    show mkCont (rnfrHandler P st (some old) (encodeLine l2 ++ rest)) = _
    unfold rnfrHandler
    rw [rtc_line l2 rest hs hlen]
    dsimp only
    rw [decode_encode]
    have hne : l2 ≠ "" := by
      intro h
      subst h
      simp at hpre
    rw [if_neg (by simp [hne, hpre])]
    rw [splitFS_no_space l2.data hnosp]
    rfl
  · intro σ P st old pre t p' rest hpChars htChars hlen hpre hren
    rw [dispatch_verb_arg P st _ "RNFR" old (by decide)]
    show mkCont (rnfrHandler P st (some old)
      (encodeLine (pre ++ " " ++ t) ++ rest)) = _
    unfold rnfrHandler
    have hdata : (pre ++ " " ++ t).data = pre.data ++ ' ' :: t.data := by
      rw [String.data_append, String.data_append]
      simp
    have hs2 : ∀ c ∈ (pre ++ " " ++ t).data, c.toNat < 128 ∧ c ≠ '\r' := by
      rw [hdata]
      intro c hc
      rcases List.mem_append.1 hc with hc1 | hc2
      · exact (hpChars c hc1).1
      · rcases hc2 with _ | hc3
        · exact ⟨by decide, by decide⟩
        · exact htChars c (by assumption)
    have hlen2 : (pre ++ " " ++ t).data.length ≤ 999 := by
      rw [hdata]
      simp only [List.length_append, List.length_cons]
      omega
    rw [rtc_line (pre ++ " " ++ t) rest hs2 hlen2]
    dsimp only
    rw [decode_encode]
    have hne : (pre ++ " " ++ t) ≠ "" := by
      intro h
      have := congrArg String.data h
      rw [hdata] at this
      simp at this
    have hpre2 : ("RNTO".data.isPrefixOf (pre ++ " " ++ t).data) = true := by
      rw [hdata, List.isPrefixOf_iff_prefix]
      rw [List.isPrefixOf_iff_prefix] at hpre
      exact hpre.trans ⟨' ' :: t.data, rfl⟩
    have hcond : ¬ ((pre ++ " " ++ t) = ""
        ∨ ¬ ("RNTO".data.isPrefixOf (pre ++ " " ++ t).data = true)) := by
      push_neg
      exact ⟨hne, hpre2⟩
    rw [if_neg hcond]
    rw [hdata, splitFS_arg pre.data t.data (fun c hc => (hpChars c hc).2)]
    dsimp only
    rw [strMkData, hren]
    rfl

/-! ### Claim C5 — passive data channel single use -/

/-- C5: the passive channel is held in an `Option` field (at most one per
session).  (1)–(3): a completed LIST / RETR / STOR transfer ends with the
channel closed and cleared (`passive := none`).  (4)–(6): a data-bearing
command without an open channel replies 425 and attempts no transfer:
the event trace contains no `listdirOp` / `getFileOp` / `saveFileOp`
invocation and no `dataSent` (for RETR, only the preceding `get_size`
probe runs). -/
theorem c5_passive_channel_single_use :
    (∀ (σ : Type) (P : Provider σ) (p p' : σ) (pd : List Nat)
        (sup : List (String × Option (List Nat))) (rest : List Nat) (txt : String),
      P.listdir p = .ok (txt, p') → (∀ c ∈ txt.data, c.toNat < 128) →
      dispatchLine P ⟨p, some pd, sup⟩ "LIST" rest
        = .cont ⟨p', none, sup⟩
            [Ev.reply 150 "Sending current directory listing",
             Ev.provCall .listdirOp, Ev.dataSent (encodeStr txt),
             Ev.reply 226 "Sent directory listing"] rest)
    ∧ (∀ (σ : Type) (P : Provider σ) (p p' p'' : σ) (pd bytes : List Nat)
        (sup : List (String × Option (List Nat))) (rest : List Nat) (f sz : String),
      P.get_size p (some f) = .ok ((true, sz), p') →
      P.get_file p' (some f) = .ok (bytes, p'') →
      dispatchLine P ⟨p, some pd, sup⟩ ("RETR" ++ " " ++ f) rest
        = .cont ⟨p'', none, sup⟩
            [Ev.provCall (.getSizeOp (some f)),
             Ev.reply 150 ("Sending binary file " ++ f),
             Ev.provCall (.getFileOp (some f)), Ev.dataSent bytes,
             Ev.reply 226 "File transfer complete"] rest)
    ∧ (∀ (σ : Type) (P : Provider σ) (p p' : σ) (pd : List Nat)
        (sup : List (String × Option (List Nat))) (rest : List Nat) (f : String),
      P.save_file p (some f) pd = .ok p' →
      dispatchLine P ⟨p, some pd, sup⟩ ("STOR" ++ " " ++ f) rest
        = .cont ⟨p', none, sup⟩
            [Ev.reply 150 "OK, send data", Ev.provCall (.saveFileOp (some f) pd),
             Ev.reply 226 "File store complete"] rest)
    ∧ (∀ (σ : Type) (P : Provider σ) (p : σ)
        (sup : List (String × Option (List Nat))) (rest : List Nat),
      dispatchLine P ⟨p, none, sup⟩ "LIST" rest
        = .cont ⟨p, none, sup⟩ [Ev.reply 425 "Enter passive mode first"] rest)
    ∧ (∀ (σ : Type) (P : Provider σ) (p p' : σ)
        (sup : List (String × Option (List Nat))) (rest : List Nat) (f sz : String),
      P.get_size p (some f) = .ok ((true, sz), p') →
      dispatchLine P ⟨p, none, sup⟩ ("RETR" ++ " " ++ f) rest
        = .cont ⟨p', none, sup⟩
            [Ev.provCall (.getSizeOp (some f)),
             Ev.reply 425 "Enter passive mode first"] rest)
    ∧ (∀ (σ : Type) (P : Provider σ) (p : σ)
        (sup : List (String × Option (List Nat))) (rest : List Nat) (f : String),
      dispatchLine P ⟨p, none, sup⟩ ("STOR" ++ " " ++ f) rest
        = .cont ⟨p, none, sup⟩ [Ev.reply 425 "Enter passive mode first"] rest) := by
  refine ⟨?_, ?_, ?_, ?_, ?_, ?_⟩
  · intro σ P p p' pd sup rest txt h ha
    show mkCont (listHandler P ⟨p, some pd, sup⟩ rest) = _
    unfold listHandler
    dsimp only
    rw [h]
    dsimp only
    rw [if_pos ha]
    rfl
  · intro σ P p p' p'' pd bytes sup rest f sz h1 h2
    rw [dispatch_verb_arg P _ rest "RETR" f (by decide)]
    show mkCont (retrHandler P ⟨p, some pd, sup⟩ (some f) rest) = _
    simp [retrHandler, mkCont, h1, h2, fstrOpt]
  · intro σ P p p' pd sup rest f h
    rw [dispatch_verb_arg P _ rest "STOR" f (by decide)]
    show mkCont (storHandler P ⟨p, some pd, sup⟩ (some f) rest) = _
    simp [storHandler, mkCont, h]
  · intro σ P p sup rest
    rfl
  · intro σ P p p' sup rest f sz h
    rw [dispatch_verb_arg P _ rest "RETR" f (by decide)]
    show mkCont (retrHandler P ⟨p, none, sup⟩ (some f) rest) = _
    simp [retrHandler, mkCont, h]
  · intro σ P p sup rest f
    rw [dispatch_verb_arg P _ rest "STOR" f (by decide)]
    rfl

/-- C5 witness: all six parts at concrete inputs over the recording
provider. -/
theorem c5_witness :
    (dispatchLine recProv ⟨[], some [9], []⟩ "LIST" []
      = .cont ⟨[], none, []⟩
          [Ev.reply 150 "Sending current directory listing",
           Ev.provCall .listdirOp, Ev.dataSent (encodeStr "listing"),
           Ev.reply 226 "Sent directory listing"] [])
    ∧ (dispatchLine recProv ⟨[], some [9], []⟩ ("RETR" ++ " " ++ "f") []
      = .cont ⟨[], none, []⟩
          [Ev.provCall (.getSizeOp (some "f")),
           Ev.reply 150 ("Sending binary file " ++ "f"),
           Ev.provCall (.getFileOp (some "f")), Ev.dataSent [1, 2, 3],
           Ev.reply 226 "File transfer complete"] [])
    ∧ (dispatchLine recProv ⟨[], some [9], []⟩ ("STOR" ++ " " ++ "f") []
      = .cont ⟨[], none, []⟩
          [Ev.reply 150 "OK, send data", Ev.provCall (.saveFileOp (some "f") [9]),
           Ev.reply 226 "File store complete"] [])
    ∧ (dispatchLine recProv ⟨[], none, []⟩ "LIST" []
      = .cont ⟨[], none, []⟩ [Ev.reply 425 "Enter passive mode first"] [])
    ∧ (dispatchLine recProv ⟨[], none, []⟩ ("RETR" ++ " " ++ "f") []
      = .cont ⟨[], none, []⟩
          [Ev.provCall (.getSizeOp (some "f")),
           Ev.reply 425 "Enter passive mode first"] [])
    ∧ (dispatchLine recProv ⟨[], none, []⟩ ("STOR" ++ " " ++ "f") []
      = .cont ⟨[], none, []⟩ [Ev.reply 425 "Enter passive mode first"] []) :=
  ⟨c5_passive_channel_single_use.1 _ recProv [] [] [9] [] [] "listing" rfl (by decide),
   c5_passive_channel_single_use.2.1 _ recProv [] [] [] [9] [1, 2, 3] [] [] "f" "7" rfl rfl,
   c5_passive_channel_single_use.2.2.1 _ recProv [] [] [9] [] [] "f" rfl,
   c5_passive_channel_single_use.2.2.2.1 _ recProv [] [] [],
   c5_passive_channel_single_use.2.2.2.2.1 _ recProv [] [] [] [] "f" "7" rfl,
   c5_passive_channel_single_use.2.2.2.2.2 _ recProv [] [] [] "f"⟩

/-! ### Claim C6 — per-command exception boundary -/

/-- C6: for every dispatched command line the loop continues (dispatch
never terminates the session), the reply sequence contains at most one
500 reply, and when a 500 reply is present it is the single final
`Error executing cmd` reply appended by the `except:` clause; a storage
failure (here: `del_file` raising) produces exactly that one 500 reply
with the session state unchanged and the loop continuing. -/
theorem c6_handler_exception_boundary :
    (∀ (σ : Type) (P : Provider σ) (st : St σ) (line : String) (rest : List Nat),
      ∃ (st' : St σ) (evs : List Ev) (rest' : List Nat),
        dispatchLine P st line rest = .cont st' evs rest' ∧
        List.countP is500 evs ≤ 1 ∧
        (List.countP is500 evs = 1 →
          evs.getLast? = some (Ev.reply 500 "Error executing cmd")))
    ∧ (∀ (σ : Type) (P : Provider σ) (st : St σ) (f : String) (rest : List Nat),
      P.del_file st.prov (some f) = .error () →
      dispatchLine P st ("DELE" ++ " " ++ f) rest
        = .cont st [Ev.provCall (.delFileOp (some f)),
                    Ev.reply 500 "Error executing cmd"] rest) := by
  constructor
  · intro σ P st line rest
    refine ⟨_, _, _, rfl, ?_, ?_⟩ <;>
      rw [List.countP_append,
        tryBody_no500 P st (String.mk (splitFirstSpace line.data).1)
          ((splitFirstSpace line.data).2.map String.mk) rest]
    · cases hb : (tryBody P st (String.mk (splitFirstSpace line.data).1)
          ((splitFirstSpace line.data).2.map String.mk) rest).2.2.2 <;>
        simp [hb, is500]
    · intro h1
      cases hb : (tryBody P st (String.mk (splitFirstSpace line.data).1)
          ((splitFirstSpace line.data).2.map String.mk) rest).2.2.2
      · rw [hb] at h1
        simp at h1
      · simp [List.getLast?_concat]
  · intro σ P st f rest h
    rw [dispatch_verb_arg P st rest "DELE" f (by decide)]
    show mkCont (deleHandler P st (some f) rest) = _
    simp [deleHandler, mkCont, h]

/-- C6 witness: a failing `MKD` dispatch (all operations of `failProv`
raise) and a failing `DELE` dispatch, both continuing with one 500. -/
theorem c6_witness :
    (∃ (st' : St Unit) (evs : List Ev) (rest' : List Nat),
        dispatchLine failProv st0 "MKD d" [] = .cont st' evs rest' ∧
        List.countP is500 evs ≤ 1 ∧
        (List.countP is500 evs = 1 →
          evs.getLast? = some (Ev.reply 500 "Error executing cmd")))
    ∧ dispatchLine failProv st0 ("DELE" ++ " " ++ "x") []
        = .cont st0 [Ev.provCall (.delFileOp (some "x")),
                     Ev.reply 500 "Error executing cmd"] [] :=
  ⟨c6_handler_exception_boundary.1 Unit failProv st0 "MKD d" [],
   c6_handler_exception_boundary.2 Unit failProv st0 "x" [] rfl⟩

/-! ### Claim C8 — verb matching -/

/-- The dispatch chain falls through to the 501 branch for any verb that
is none of the verbs the source compares against (note the chain also
accepts the lowercase `noop` and `opts`). -/
theorem tryBody_unknown {σ : Type} (P : Provider σ) (st : St σ) (cmd : String)
    (args : Option String) (rest : List Nat)
    (h : cmd ∉ (["CWD", "DELE", "LIST", "MKD", "XMKD", "NOOP", "noop", "OPTS",
      "opts", "PASV", "PWD", "XPWD", "QUIT", "RMD", "XRMD", "RNFR", "RETR",
      "SIZE", "STOR", "SYST", "TYPE", "USER"] : List String)) :
    tryBody P st cmd args rest = (st, [.reply 501 "Unknown cmd"], rest, false) := by
  simp only [List.mem_cons, List.not_mem_nil, or_false, not_or] at h
  obtain ⟨e1, e2, e3, e4, e5, e6, e7, e8, e9, e10, e11, e12, e13, e14, e15,
    e16, e17, e18, e19, e20, e21, e22⟩ := h
  unfold tryBody
  rw [if_neg e1, if_neg e2, if_neg e3, if_neg (not_or.mpr ⟨e4, e5⟩),
    if_neg (not_or.mpr ⟨e6, e7⟩), if_neg (not_or.mpr ⟨e8, e9⟩), if_neg e10,
    if_neg (not_or.mpr ⟨e11, e12⟩), if_neg e13, if_neg (not_or.mpr ⟨e14, e15⟩),
    if_neg e16, if_neg e17, if_neg e18, if_neg e19, if_neg e20, if_neg e21,
    if_neg e22]

/-- C8 counterexample: the verb `noop` is not one of the dispatch-table
verbs of the specification (they are upper-case), differing from `NOOP`
only in case — yet the server replies 200, not 501: the source also
compares against the lowercase `'noop'`. -/
theorem c8_counterexample :
    dispatchLine failProv st0 "noop" [] = .cont st0 [Ev.reply 200 "NOOP OK"] []
    ∧ ("noop" : String) ≠ "NOOP" :=
  ⟨rfl, by decide⟩

/-- C8 (amended): verb matching is by exact string comparison, against
the upper-case verbs plus the two lowercase forms `noop` and `opts`; a
verb token equal to none of these gets the single 501 reply and invokes
nothing, leaving the session state unchanged. -/
theorem c8_unknown_verb_replies_501 {σ : Type} (P : Provider σ) (st : St σ)
    (line : String) (rest : List Nat)
    (h : String.mk (splitFirstSpace line.data).1 ∉
      (["CWD", "DELE", "LIST", "MKD", "XMKD", "NOOP", "noop", "OPTS", "opts",
        "PASV", "PWD", "XPWD", "QUIT", "RMD", "XRMD", "RNFR", "RETR", "SIZE",
        "STOR", "SYST", "TYPE", "USER"] : List String)) :
    dispatchLine P st line rest = .cont st [Ev.reply 501 "Unknown cmd"] rest := by
  unfold dispatchLine
  dsimp only
  rw [tryBody_unknown P st _ _ rest h]
  rfl

/-- C8 witness: the verb `FOO` gets 501. -/
theorem c8_witness :
    dispatchLine failProv st0 "FOO bar" [] =
      .cont st0 [Ev.reply 501 "Unknown cmd"] [] :=
  c8_unknown_verb_replies_501 failProv st0 "FOO bar" [] (by decide)

/-! ### Claim C7 — listing line format -/

/-- C7 counterexample: a directory entry whose OS `st_size` is 4096 (the
usual value on Linux) is listed by `FileSystemProvider.listdir` with
size field `4096`, not `0`: the source prints `f_stat.st_size` unchanged
in the directory branch, so "size 0 reported for every directory entry"
fails. -/
theorem c7_counterexample :
    fsListLine ⟨"d", true, 4096, "Jan  1 2020"⟩
      = "drwxr-xr-x 2 0 0 4096 Jan  1 2020 d" ++ "\r\n"
    ∧ fsListLine ⟨"d", true, 4096, "Jan  1 2020"⟩
      ≠ specListLine true 4096 "Jan  1 2020" "d" :=
  ⟨rfl, by decide⟩

/-- C7 (amended): every listing line follows the `ls -l`-style fixed
fields with uid and gid 0, permission string `drwxr-xr-x` for
directories and `-rw-r--r--` for files, and a CRLF terminator; the
Dropbox provider reports size 0 for every directory entry, but the
filesystem provider echoes the OS-reported `st_size` for directories
(which is 0 only when the OS says so). -/
theorem c7_listing_line_format :
    (∀ e : DbxEntry, dbxListLine e = specListLine e.isDir e.size e.timeStr e.name)
    ∧ (∀ e : FsDirEntry,
        fsListLine e = specListLineSized e.isDir e.stSize e.timeStr e.name) := by
  constructor
  · intro e
    obtain ⟨n, d, sz, t⟩ := e
    cases d <;> rfl
  · intro e
    obtain ⟨n, d, sz, t⟩ := e
    cases d <;> rfl

/-! ### Claim C9 — store / fetch round trip -/

/-- The write loop of `save_file` concatenates the chunks when none of
the supplied chunks is empty (the empty chunk is the end marker). -/
theorem writeChunks_flatten (chunks : List (List Nat))
    (h : ∀ c ∈ chunks, c ≠ []) : writeChunks chunks = chunks.flatten := by
  induction chunks with
  | nil => rfl
  | cons c cs ih =>
    have hc : c ≠ [] := h c (by simp)
    simp only [writeChunks, if_neg hc, List.flatten_cons]
    rw [ih (fun x hx => h x (by simp [hx]))]

/-- C9: storing a payload supplied as successive non-empty chunks
(followed by the empty end-of-data chunk) under a name and reading the
same name back yields exactly the concatenation of the chunks — for the
empty payload (`chunks = []`) and multi-chunk payloads alike. -/
theorem c9_save_get_roundtrip (st : FsState) (name : String)
    (chunks : List (List Nat)) (hn : name ≠ "") (hc : ∀ c ∈ chunks, c ≠ []) :
    ∃ st', FsState.save_file st name chunks = .ok st' ∧
      FsState.get_file st' name = .ok chunks.flatten := by
  have hnp : ∃ np, st.normalize_path name = .ok np := by
    unfold FsState.normalize_path
    rw [if_neg hn]
    exact ⟨_, rfl⟩
  obtain ⟨np, hnp⟩ := hnp
  refine ⟨{ st with files := (np, writeChunks chunks) :: st.files }, ?_, ?_⟩
  · unfold FsState.save_file
    rw [hnp]
  · unfold FsState.get_file
    have hsame : ({ st with files := (np, writeChunks chunks) :: st.files }
        : FsState).normalize_path name = st.normalize_path name := rfl
    rw [hsame, hnp]
    dsimp only
    rw [List.lookup_cons]
    simp [writeChunks_flatten chunks hc]

/-- C9 witness: a two-chunk payload round-trips under a concrete store. -/
theorem c9_witness :
    ∃ st', FsState.save_file ⟨"/r", "/r", ["/r"], []⟩ "f" [[1, 2], [3]] = .ok st' ∧
      FsState.get_file st' "f" = .ok ([[1, 2], [3]] : List (List Nat)).flatten :=
  c9_save_get_roundtrip ⟨"/r", "/r", ["/r"], []⟩ "f" [[1, 2], [3]]
    (by decide) (by decide)

/-! ### Claim C10 — working-directory representation -/

/-- C10: (a) the working directory starts out as the OS root given at
construction (when the root has no backslashes to rewrite) and (b) a
failed `change_work_dir` leaves the state unchanged, so `get_work_dir`
keeps answering the OS root until the first successful change; (c) every
successful `change_work_dir` stores the normalized path with the first
`len(root_dir)` characters removed and a `'/'` prepended — hence from
then on the working directory begins with `'/'`. -/
theorem c10_work_dir_representation :
    (∀ (root : String) (dirs : List String) (files : List (String × List Nat))
        (st1 : FsState),
      (∀ c ∈ root.data, c ≠ '\\') → fsInit root dirs files = .ok st1 →
      st1.get_work_dir = root)
    ∧ (∀ (st st' : FsState) (arg : String),
      st.change_work_dir arg = .ok (false, st') → st' = st)
    ∧ (∀ (st st' : FsState) (arg : String),
      st.change_work_dir arg = .ok (true, st') →
      ∃ nd, st.normalize_path arg = .ok nd ∧
        st'.working_dir = "/" ++ nd.drop st.root_dir.length ∧
        st'.working_dir.data.head? = some '/') := by
  refine ⟨?_, ?_, ?_⟩
  · intro root dirs files st1 hroot hinit
    have hb : pyBackslashToSlash root = root := by
      unfold pyBackslashToSlash
      rw [List.map_congr_left (g := id) (fun c hcm => by
        simp [hroot c hcm])]
      rw [List.map_id, strMkData]
    unfold fsInit at hinit
    rw [hb] at hinit
    dsimp only at hinit
    split at hinit
    · simp only [Except.ok.injEq] at hinit
      subst hinit
      rfl
    · simp at hinit
  · intro st st' arg h
    unfold FsState.change_work_dir at h
    cases hn : st.normalize_path arg with
    | error e => rw [hn] at h; simp at h
    | ok nd =>
      rw [hn] at h
      dsimp only at h
      split at h
      · simp at h
      · simp only [Except.ok.injEq, Prod.mk.injEq] at h
        exact h.2.symm
  · intro st st' arg h
    unfold FsState.change_work_dir at h
    cases hn : st.normalize_path arg with
    | error e => rw [hn] at h; simp at h
    | ok nd =>
      rw [hn] at h
      dsimp only at h
      split at h
      · simp only [Except.ok.injEq, Prod.mk.injEq] at h
        refine ⟨nd, rfl, ?_, ?_⟩
        · rw [← h.2]
        · rw [← h.2]
          simp [String.data_append]
      · simp at h

/-- C10 witness: a concrete root and a successful `CWD /s` (which stores
the double-slash value `//s`, duly beginning with a slash). -/
theorem c10_witness :
    (FsState.get_work_dir ⟨"/r", "/r", ["/r", "/r/s"], []⟩ = "/r")
    ∧ (∃ nd, (⟨"/r", "/r", ["/r", "/r/s"], []⟩ : FsState).normalize_path "/s"
          = .ok nd ∧
        (⟨"/r", "//s", ["/r", "/r/s"], []⟩ : FsState).working_dir
          = "/" ++ nd.drop ("/r" : String).length ∧
        (⟨"/r", "//s", ["/r", "/r/s"], []⟩ : FsState).working_dir.data.head?
          = some '/') :=
  ⟨c10_work_dir_representation.1 "/r" ["/r", "/r/s"] []
      ⟨"/r", "/r", ["/r", "/r/s"], []⟩ (by decide) (by rfl),
   c10_work_dir_representation.2.2 ⟨"/r", "/r", ["/r", "/r/s"], []⟩
      ⟨"/r", "//s", ["/r", "/r/s"], []⟩ "/s" (by rfl)⟩

/-- C3 witness: a non-RNTO next line (`DELE x`) gets the 500 with no
rename; a next line `RNTOX b` — whose token merely starts with RNTO —
performs the rename once with target `b`. -/
theorem c3_witness :
    (dispatchLine failProv st0 ("RNFR" ++ " " ++ "a") (encodeLine "DELE x" ++ [])
      = .cont st0 [Ev.reply 350 "Ready to rename",
                   Ev.reply 500 "Error executing cmd"] [])
    ∧ (dispatchLine recProv stRec ("RNFR" ++ " " ++ "a")
          (encodeLine ("RNTOX" ++ " " ++ "b") ++ [])
      = .cont { stRec with prov := [(some "a", "b")] }
          [Ev.reply 350 "Ready to rename",
           Ev.provCall (.renameFileOp (some "a") "b"),
           Ev.reply 250 "Renamed file"] []) :=
  ⟨c3_rnfr_next_line.1 Unit failProv st0 "a" "DELE x" []
      (by decide) (by decide) (by decide),
   c3_rnfr_next_line.2.2 _ recProv stRec "a" "RNTOX" "b" [(some "a", "b")] []
      (by decide) (by decide) (by decide) (by decide) rfl⟩
